import Mathlib

/-!
Verification of the pygeopackage spatial-table and geometry-codec core.

This file gives a shallow embedding of the relevant parts of the
repository (src/geopackage/_geopackage.py, _gpkg.py, _coord.py,
_rtree.py) and settles the frozen claims about it.

Conventions of the embedding:
* a Python bytes value is a `List Nat` whose entries are below 256;
* an IEEE-754 double is represented by the natural number whose binary
  expansion is its 64-bit pattern (the codecs only copy those 8 bytes,
  so this is exact);
* SQLite state touched by the schema operations is an explicit record
  (`GpkgState`), and every operation returns its result together with
  the state it leaves behind, so that partial mutation before an
  exception is visible;
* a Python exception is an `Except` error value.

The module `geopackage/_wkb.py` (functions `loads`/`dumps`) is imported
by the source but absent from the source tree; the WKB codec below is
modelled from the spec, as are the geomet interop calls.
-/

namespace PyGpkg

/-! ## Byte-level utilities -/

/-- Little-endian byte expansion of a natural number to a fixed width,
as produced by Python int.to_bytes(w, "little") for values below 256^w. -/
def toBytesLE : Nat → Nat → List Nat
  | 0, _ => []
  | w + 1, v => v % 256 :: toBytesLE w (v / 256)

/-- Read a little-endian byte list back as a natural number. -/
def bytesToNatLE : List Nat → Nat
  | [] => 0
  | b :: bs => b + 256 * bytesToNatLE bs

theorem toBytesLE_length (w v : Nat) : (toBytesLE w v).length = w := by
  induction w generalizing v with
  | zero => rfl
  | succ w ih => simp [toBytesLE, ih]

theorem bytesToNatLE_toBytesLE (w v : Nat) (h : v < 256 ^ w) :
    bytesToNatLE (toBytesLE w v) = v := by
  induction w generalizing v with
  | zero =>
    simp [toBytesLE, bytesToNatLE]
    omega
  | succ w ih =>
    have hdiv : v / 256 < 256 ^ w := by
      rw [Nat.div_lt_iff_lt_mul (by norm_num)]
      calc v < 256 ^ (w + 1) := h
        _ = 256 ^ w * 256 := by ring
    simp [toBytesLE, bytesToNatLE, ih (v / 256) hdiv]
    omega

/-- Byte order of a WKB value. -/
inductive ByteOrder
  | big
  | little
deriving DecidableEq, Repr

/-- The WKB order byte: 0 = big endian, 1 = little endian. -/
def ByteOrder.flag : ByteOrder → Nat
  | .big => 0
  | .little => 1

/-- Serialize a `w`-byte unsigned integer in the given byte order. -/
def putNat (o : ByteOrder) (w v : Nat) : List Nat :=
  match o with
  | .little => toBytesLE w v
  | .big => (toBytesLE w v).reverse

/-- Interpret a full byte list as an unsigned integer in the given order. -/
def readNatBytes (o : ByteOrder) (bs : List Nat) : Nat :=
  match o with
  | .little => bytesToNatLE bs
  | .big => bytesToNatLE bs.reverse

/-- Consume a `w`-byte unsigned integer from the front of a buffer. -/
def getNat (o : ByteOrder) (w : Nat) (bs : List Nat) : Option (Nat × List Nat) :=
  if w ≤ bs.length then some (readNatBytes o (bs.take w), bs.drop w) else none

theorem putNat_length (o : ByteOrder) (w v : Nat) : (putNat o w v).length = w := by
  cases o <;> simp [putNat, toBytesLE_length]

theorem readNatBytes_putNat (o : ByteOrder) (w v : Nat) (h : v < 256 ^ w) :
    readNatBytes o (putNat o w v) = v := by
  cases o <;> simp [putNat, readNatBytes, bytesToNatLE_toBytesLE w v h]

theorem getNat_putNat (o : ByteOrder) (w v : Nat) (rest : List Nat) (h : v < 256 ^ w) :
    getNat o w (putNat o w v ++ rest) = some (v, rest) := by
  have hlen : (putNat o w v).length = w := putNat_length o w v
  unfold getNat
  rw [if_pos (by simp [hlen])]
  rw [List.take_left' hlen, List.drop_left' hlen, readNatBytes_putNat o w v h]

/-- Signed 32-bit interpretation of 4 little-endian bytes (twos complement). -/
def decodeS32LE (bs : List Nat) : Int :=
  let u := bytesToNatLE (bs.take 4)
  if u < 2 ^ 31 then (u : Int) else (u : Int) - 2 ^ 32

/-! ## Geometry model and WKB codec

Modelled from the spec: the repository imports `loads` and `dumps` from
`geopackage/_wkb.py`, a module that is not in the source tree.  The spec
describes it as `WKBCodec`: ISO WKB with base type codes 1..6, plus 1000
for Z, 2000 for M, 3000 for ZM, an order byte per geometry
(0 = big endian, 1 = little endian), 4-byte unsigned counts, and
coordinates as IEEE-754 doubles (held here as their 64-bit patterns). -/

/-- Coordinate dimensionality of a geometry (spec section 3). -/
inductive Dim
  | xy
  | xyz
  | xym
  | xyzm
deriving DecidableEq, Repr

/-- Number of ordinates per coordinate. -/
def Dim.size : Dim → Nat
  | .xy => 2
  | .xyz => 3
  | .xym => 3
  | .xyzm => 4

/-- Type-code offset of the dimensionality (spec section 4.1). -/
def Dim.offset : Dim → Nat
  | .xy => 0
  | .xyz => 1000
  | .xym => 2000
  | .xyzm => 3000

/-- Recover the dimensionality from a WKB type code. -/
def dimOfCode (code : Nat) : Option Dim :=
  match code / 1000 with
  | 0 => some .xy
  | 1 => some .xyz
  | 2 => some .xym
  | 3 => some .xyzm
  | _ => none

/-- One coordinate: the 64-bit patterns of its ordinates. -/
abbrev Coord := List Nat

/-- Modelled from the spec: the GeometryModel tagged union (spec section 3),
with the variants named after the ISO WKB geometry kinds. -/
inductive Geom
  | point (d : Dim) (c : Coord)
  | linestring (d : Dim) (ps : List Coord)
  | polygon (d : Dim) (rs : List (List Coord))
  | multipoint (d : Dim) (cs : List Coord)
  | multilinestring (d : Dim) (ls : List (List Coord))
  | multipolygon (d : Dim) (pgs : List (List (List Coord)))
deriving DecidableEq, Repr

/-- Serialize one coordinate: its ordinates as 8-byte doubles. -/
def putCoord (o : ByteOrder) (c : Coord) : List Nat :=
  (c.map (putNat o 8)).flatten

/-- Serialize a counted coordinate sequence (linestring body, one ring). -/
def putCoordSeq (o : ByteOrder) (ps : List Coord) : List Nat :=
  putNat o 4 ps.length ++ (ps.map (putCoord o)).flatten

/-- Serialize a counted ring sequence (polygon body). -/
def putRingSeq (o : ByteOrder) (rs : List (List Coord)) : List Nat :=
  putNat o 4 rs.length ++ (rs.map (putCoordSeq o)).flatten

/-- Order byte followed by the 4-byte type code. -/
def putGeomHeader (o : ByteOrder) (code : Nat) : List Nat :=
  o.flag :: putNat o 4 code

/-- Modelled from the spec: WKBCodec.encode (`dumps` of the missing
`_wkb.py`); every sub-geometry of a multi-part geometry carries its own
order byte and type code, in the same byte order. -/
def wkbEncode (o : ByteOrder) : Geom → List Nat
  | .point d c => putGeomHeader o (1 + d.offset) ++ putCoord o c
  | .linestring d ps => putGeomHeader o (2 + d.offset) ++ putCoordSeq o ps
  | .polygon d rs => putGeomHeader o (3 + d.offset) ++ putRingSeq o rs
  | .multipoint d cs =>
      putGeomHeader o (4 + d.offset) ++ putNat o 4 cs.length ++
        (cs.map (fun c => putGeomHeader o (1 + d.offset) ++ putCoord o c)).flatten
  | .multilinestring d ls =>
      putGeomHeader o (5 + d.offset) ++ putNat o 4 ls.length ++
        (ls.map (fun ps => putGeomHeader o (2 + d.offset) ++ putCoordSeq o ps)).flatten
  | .multipolygon d pgs =>
      putGeomHeader o (6 + d.offset) ++ putNat o 4 pgs.length ++
        (pgs.map (fun rs => putGeomHeader o (3 + d.offset) ++ putRingSeq o rs)).flatten

/-- Consume the order byte of a WKB value. -/
def getOrder : List Nat → Option (ByteOrder × List Nat)
  | 0 :: t => some (.big, t)
  | 1 :: t => some (.little, t)
  | _ => none

/-- Consume `n` doubles. -/
def getDoubles (o : ByteOrder) : Nat → List Nat → Option (List Nat × List Nat)
  | 0, bs => some ([], bs)
  | n + 1, bs =>
    match getNat o 8 bs with
    | none => none
    | some (v, bs1) =>
      match getDoubles o n bs1 with
      | none => none
      | some (vs, bs2) => some (v :: vs, bs2)

/-- Consume one coordinate of the given dimensionality. -/
def getCoord (o : ByteOrder) (d : Dim) (bs : List Nat) : Option (Coord × List Nat) :=
  getDoubles o d.size bs

/-- Consume `n` coordinates. -/
def getCoordSeq (o : ByteOrder) (d : Dim) : Nat → List Nat → Option (List Coord × List Nat)
  | 0, bs => some ([], bs)
  | n + 1, bs =>
    match getCoord o d bs with
    | none => none
    | some (c, bs1) =>
      match getCoordSeq o d n bs1 with
      | none => none
      | some (cs, bs2) => some (c :: cs, bs2)

/-- Consume a counted coordinate sequence. -/
def getLineBody (o : ByteOrder) (d : Dim) (bs : List Nat) : Option (List Coord × List Nat) :=
  match getNat o 4 bs with
  | none => none
  | some (n, bs1) => getCoordSeq o d n bs1

/-- Consume `n` counted coordinate sequences (the rings of a polygon). -/
def getRingSeq (o : ByteOrder) (d : Dim) : Nat → List Nat → Option (List (List Coord) × List Nat)
  | 0, bs => some ([], bs)
  | n + 1, bs =>
    match getLineBody o d bs with
    | none => none
    | some (r, bs1) =>
      match getRingSeq o d n bs1 with
      | none => none
      | some (rs, bs2) => some (r :: rs, bs2)

/-- Consume a counted ring sequence (polygon body). -/
def getPolyBody (o : ByteOrder) (d : Dim) (bs : List Nat) :
    Option (List (List Coord) × List Nat) :=
  match getNat o 4 bs with
  | none => none
  | some (n, bs1) => getRingSeq o d n bs1

/-- Consume an order byte and type code; yields the order, the base code
and the dimensionality. -/
def getTypedHeader (bs : List Nat) : Option (ByteOrder × Nat × Dim × List Nat) :=
  match getOrder bs with
  | none => none
  | some (o, bs1) =>
    match getNat o 4 bs1 with
    | none => none
    | some (code, bs2) =>
      match dimOfCode code with
      | none => none
      | some d => some (o, code % 1000, d, bs2)

/-- Consume a full inner point geometry whose dimensionality must match
the enclosing multipoint. -/
def getPointGeom (d : Dim) (bs : List Nat) : Option (Coord × List Nat) :=
  match getTypedHeader bs with
  | none => none
  | some (o2, base, d2, bs1) =>
    if base = 1 ∧ d2 = d then getCoord o2 d bs1 else none

/-- Consume `n` inner point geometries. -/
def getPointGeomSeq (d : Dim) : Nat → List Nat → Option (List Coord × List Nat)
  | 0, bs => some ([], bs)
  | n + 1, bs =>
    match getPointGeom d bs with
    | none => none
    | some (c, bs1) =>
      match getPointGeomSeq d n bs1 with
      | none => none
      | some (cs, bs2) => some (c :: cs, bs2)

/-- Consume a full inner linestring geometry. -/
def getLineGeom (d : Dim) (bs : List Nat) : Option (List Coord × List Nat) :=
  match getTypedHeader bs with
  | none => none
  | some (o2, base, d2, bs1) =>
    if base = 2 ∧ d2 = d then getLineBody o2 d bs1 else none

/-- Consume `n` inner linestring geometries. -/
def getLineGeomSeq (d : Dim) : Nat → List Nat → Option (List (List Coord) × List Nat)
  | 0, bs => some ([], bs)
  | n + 1, bs =>
    match getLineGeom d bs with
    | none => none
    | some (l, bs1) =>
      match getLineGeomSeq d n bs1 with
      | none => none
      | some (ls, bs2) => some (l :: ls, bs2)

/-- Consume a full inner polygon geometry. -/
def getPolyGeom (d : Dim) (bs : List Nat) : Option (List (List Coord) × List Nat) :=
  match getTypedHeader bs with
  | none => none
  | some (o2, base, d2, bs1) =>
    if base = 3 ∧ d2 = d then getPolyBody o2 d bs1 else none

/-- Consume `n` inner polygon geometries. -/
def getPolyGeomSeq (d : Dim) :
    Nat → List Nat → Option (List (List (List Coord)) × List Nat)
  | 0, bs => some ([], bs)
  | n + 1, bs =>
    match getPolyGeom d bs with
    | none => none
    | some (p, bs1) =>
      match getPolyGeomSeq d n bs1 with
      | none => none
      | some (ps, bs2) => some (p :: ps, bs2)

/-- Modelled from the spec: WKBCodec.decode (`loads` of the missing
`_wkb.py`); the byte order is read from the value's own order byte, and
an unrecognized type code fails. -/
def wkbDecode (bs : List Nat) : Option (Geom × List Nat) :=
  match getTypedHeader bs with
  | none => none
  | some (o, base, d, bs1) =>
    match base with
    | 1 =>
      match getCoord o d bs1 with
      | none => none
      | some (c, bs2) => some (.point d c, bs2)
    | 2 =>
      match getLineBody o d bs1 with
      | none => none
      | some (ps, bs2) => some (.linestring d ps, bs2)
    | 3 =>
      match getPolyBody o d bs1 with
      | none => none
      | some (rs, bs2) => some (.polygon d rs, bs2)
    | 4 =>
      match getNat o 4 bs1 with
      | none => none
      | some (n, bs2) =>
        match getPointGeomSeq d n bs2 with
        | none => none
        | some (cs, bs3) => some (.multipoint d cs, bs3)
    | 5 =>
      match getNat o 4 bs1 with
      | none => none
      | some (n, bs2) =>
        match getLineGeomSeq d n bs2 with
        | none => none
        | some (ls, bs3) => some (.multilinestring d ls, bs3)
    | 6 =>
      match getNat o 4 bs1 with
      | none => none
      | some (n, bs2) =>
        match getPolyGeomSeq d n bs2 with
        | none => none
        | some (pgs, bs3) => some (.multipolygon d pgs, bs3)
    | _ => none

/-- Well-formed coordinate: right arity, ordinates fit in 64 bits. -/
def coordWF (d : Dim) (c : Coord) : Prop :=
  c.length = d.size ∧ ∀ v ∈ c, v < 2 ^ 64

/-- Well-formed ring: count fits in 32 bits, coordinates well-formed. -/
def ringWF (d : Dim) (r : List Coord) : Prop :=
  r.length < 2 ^ 32 ∧ ∀ c ∈ r, coordWF d c

/-- Well-formed ring list of one polygon. -/
def ringsWF (d : Dim) (rs : List (List Coord)) : Prop :=
  rs.length < 2 ^ 32 ∧ ∀ r ∈ rs, ringWF d r

/-- Well-formed geometry: every count fits in 32 bits and every ordinate
in 64 bits, so that the fixed-width fields can hold them. -/
def Geom.WF : Geom → Prop
  | .point d c => coordWF d c
  | .linestring d ps => ringWF d ps
  | .polygon d rs => ringsWF d rs
  | .multipoint d cs => ringWF d cs
  | .multilinestring d ls => ls.length < 2 ^ 32 ∧ ∀ ps ∈ ls, ringWF d ps
  | .multipolygon d pgs => pgs.length < 2 ^ 32 ∧ ∀ rs ∈ pgs, ringsWF d rs

instance (d : Dim) (c : Coord) : Decidable (coordWF d c) :=
  inferInstanceAs (Decidable (_ ∧ _))

instance (d : Dim) (r : List Coord) : Decidable (ringWF d r) :=
  inferInstanceAs (Decidable (_ ∧ _))

instance (d : Dim) (rs : List (List Coord)) : Decidable (ringsWF d rs) :=
  inferInstanceAs (Decidable (_ ∧ _))

instance : (g : Geom) → Decidable g.WF
  | .point _ _ => inferInstanceAs (Decidable (coordWF _ _))
  | .linestring _ _ => inferInstanceAs (Decidable (ringWF _ _))
  | .polygon _ _ => inferInstanceAs (Decidable (ringsWF _ _))
  | .multipoint _ _ => inferInstanceAs (Decidable (ringWF _ _))
  | .multilinestring _ _ => inferInstanceAs (Decidable (_ ∧ _))
  | .multipolygon _ _ => inferInstanceAs (Decidable (_ ∧ _))

/-! ## Round-trip lemmas for the WKB codec -/

theorem pow_256_eight : (256 : Nat) ^ 8 = 2 ^ 64 := by norm_num

theorem pow_256_four : (256 : Nat) ^ 4 = 2 ^ 32 := by norm_num

theorem getDoubles_put (o : ByteOrder) (c : List Nat) (rest : List Nat)
    (h : ∀ v ∈ c, v < 2 ^ 64) :
    getDoubles o c.length ((c.map (putNat o 8)).flatten ++ rest) = some (c, rest) := by
  induction c with
  | nil => rfl
  | cons v vs ih =>
    have hv : v < 256 ^ 8 := by rw [pow_256_eight]; exact h v (by simp)
    simp only [List.map_cons, List.flatten_cons, List.append_assoc, List.length_cons]
    unfold getDoubles
    rw [getNat_putNat o 8 v _ hv]
    dsimp only
    rw [ih (fun w hw => h w (by simp [hw]))]

theorem getCoord_put (o : ByteOrder) (d : Dim) (c : Coord) (rest : List Nat)
    (h : coordWF d c) :
    getCoord o d (putCoord o c ++ rest) = some (c, rest) := by
  unfold getCoord putCoord
  rw [← h.1]
  exact getDoubles_put o c rest h.2

theorem getCoordSeq_put (o : ByteOrder) (d : Dim) (ps : List Coord) (rest : List Nat)
    (h : ∀ c ∈ ps, coordWF d c) :
    getCoordSeq o d ps.length ((ps.map (putCoord o)).flatten ++ rest) = some (ps, rest) := by
  induction ps with
  | nil => rfl
  | cons c cs ih =>
    simp only [List.map_cons, List.flatten_cons, List.append_assoc, List.length_cons]
    unfold getCoordSeq
    rw [getCoord_put o d c _ (h c (by simp))]
    dsimp only
    rw [ih (fun w hw => h w (by simp [hw]))]

theorem getLineBody_put (o : ByteOrder) (d : Dim) (ps : List Coord) (rest : List Nat)
    (h : ringWF d ps) :
    getLineBody o d (putCoordSeq o ps ++ rest) = some (ps, rest) := by
  have hn : ps.length < 256 ^ 4 := by rw [pow_256_four]; exact h.1
  unfold getLineBody putCoordSeq
  rw [List.append_assoc, getNat_putNat o 4 ps.length _ hn]
  dsimp only
  rw [getCoordSeq_put o d ps rest h.2]

theorem getRingSeq_put (o : ByteOrder) (d : Dim) (rs : List (List Coord)) (rest : List Nat)
    (h : ∀ r ∈ rs, ringWF d r) :
    getRingSeq o d rs.length ((rs.map (putCoordSeq o)).flatten ++ rest) = some (rs, rest) := by
  induction rs with
  | nil => rfl
  | cons r rs ih =>
    simp only [List.map_cons, List.flatten_cons, List.append_assoc, List.length_cons]
    unfold getRingSeq
    rw [getLineBody_put o d r _ (h r (by simp))]
    dsimp only
    rw [ih (fun w hw => h w (by simp [hw]))]

theorem getPolyBody_put (o : ByteOrder) (d : Dim) (rs : List (List Coord)) (rest : List Nat)
    (h : ringsWF d rs) :
    getPolyBody o d (putRingSeq o rs ++ rest) = some (rs, rest) := by
  have hn : rs.length < 256 ^ 4 := by rw [pow_256_four]; exact h.1
  unfold getPolyBody putRingSeq
  rw [List.append_assoc, getNat_putNat o 4 rs.length _ hn]
  dsimp only
  rw [getRingSeq_put o d rs rest h.2]

theorem getOrder_flag (o : ByteOrder) (rest : List Nat) :
    getOrder (o.flag :: rest) = some (o, rest) := by
  cases o <;> rfl

theorem getTypedHeader_put (o : ByteOrder) (b : Nat) (d : Dim) (rest : List Nat)
    (hb : 0 < b) (hb2 : b < 1000) :
    getTypedHeader (putGeomHeader o (b + d.offset) ++ rest) = some (o, b, d, rest) := by
  have hcode : b + d.offset < 256 ^ 4 := by
    rw [pow_256_four]; cases d <;> simp [Dim.offset] <;> omega
  unfold getTypedHeader putGeomHeader
  rw [List.cons_append, getOrder_flag]
  dsimp only
  rw [getNat_putNat o 4 _ rest hcode]
  dsimp only
  cases d with
  | xy =>
    have h1 : (b + Dim.offset .xy) / 1000 = 0 := by simp [Dim.offset]; omega
    have h2 : (b + Dim.offset .xy) % 1000 = b := by simp [Dim.offset]; omega
    simp [dimOfCode, h1, h2]
  | xyz =>
    have h1 : (b + Dim.offset .xyz) / 1000 = 1 := by simp [Dim.offset]; omega
    have h2 : (b + Dim.offset .xyz) % 1000 = b := by simp [Dim.offset]; omega
    simp [dimOfCode, h1, h2]
  | xym =>
    have h1 : (b + Dim.offset .xym) / 1000 = 2 := by simp [Dim.offset]; omega
    have h2 : (b + Dim.offset .xym) % 1000 = b := by simp [Dim.offset]; omega
    simp [dimOfCode, h1, h2]
  | xyzm =>
    have h1 : (b + Dim.offset .xyzm) / 1000 = 3 := by simp [Dim.offset]; omega
    have h2 : (b + Dim.offset .xyzm) % 1000 = b := by simp [Dim.offset]; omega
    simp [dimOfCode, h1, h2]

theorem getPointGeom_put (o : ByteOrder) (d : Dim) (c : Coord) (rest : List Nat)
    (h : coordWF d c) :
    getPointGeom d ((putGeomHeader o (1 + d.offset) ++ putCoord o c) ++ rest) =
      some (c, rest) := by
  unfold getPointGeom
  rw [List.append_assoc, getTypedHeader_put o 1 d _ (by omega) (by omega)]
  simp [getCoord_put o d c rest h]

theorem getPointGeomSeq_put (o : ByteOrder) (d : Dim) (cs : List Coord) (rest : List Nat)
    (h : ∀ c ∈ cs, coordWF d c) :
    getPointGeomSeq d cs.length
      ((cs.map (fun c => putGeomHeader o (1 + d.offset) ++ putCoord o c)).flatten ++ rest) =
      some (cs, rest) := by
  induction cs with
  | nil => rfl
  | cons c cs ih =>
    simp only [List.map_cons, List.flatten_cons, List.append_assoc, List.length_cons]
    unfold getPointGeomSeq
    rw [← List.append_assoc, getPointGeom_put o d c _ (h c (by simp))]
    dsimp only
    rw [ih (fun w hw => h w (by simp [hw]))]

theorem getLineGeom_put (o : ByteOrder) (d : Dim) (ps : List Coord) (rest : List Nat)
    (h : ringWF d ps) :
    getLineGeom d ((putGeomHeader o (2 + d.offset) ++ putCoordSeq o ps) ++ rest) =
      some (ps, rest) := by
  unfold getLineGeom
  rw [List.append_assoc, getTypedHeader_put o 2 d _ (by omega) (by omega)]
  simp [getLineBody_put o d ps rest h]

theorem getLineGeomSeq_put (o : ByteOrder) (d : Dim) (ls : List (List Coord)) (rest : List Nat)
    (h : ∀ ps ∈ ls, ringWF d ps) :
    getLineGeomSeq d ls.length
      ((ls.map (fun ps => putGeomHeader o (2 + d.offset) ++ putCoordSeq o ps)).flatten ++ rest) =
      some (ls, rest) := by
  induction ls with
  | nil => rfl
  | cons l ls ih =>
    simp only [List.map_cons, List.flatten_cons, List.append_assoc, List.length_cons]
    unfold getLineGeomSeq
    rw [← List.append_assoc, getLineGeom_put o d l _ (h l (by simp))]
    dsimp only
    rw [ih (fun w hw => h w (by simp [hw]))]

theorem getPolyGeom_put (o : ByteOrder) (d : Dim) (rs : List (List Coord)) (rest : List Nat)
    (h : ringsWF d rs) :
    getPolyGeom d ((putGeomHeader o (3 + d.offset) ++ putRingSeq o rs) ++ rest) =
      some (rs, rest) := by
  unfold getPolyGeom
  rw [List.append_assoc, getTypedHeader_put o 3 d _ (by omega) (by omega)]
  simp [getPolyBody_put o d rs rest h]

theorem getPolyGeomSeq_put (o : ByteOrder) (d : Dim) (pgs : List (List (List Coord)))
    (rest : List Nat) (h : ∀ rs ∈ pgs, ringsWF d rs) :
    getPolyGeomSeq d pgs.length
      ((pgs.map (fun rs => putGeomHeader o (3 + d.offset) ++ putRingSeq o rs)).flatten ++ rest) =
      some (pgs, rest) := by
  induction pgs with
  | nil => rfl
  | cons p ps ih =>
    simp only [List.map_cons, List.flatten_cons, List.append_assoc, List.length_cons]
    unfold getPolyGeomSeq
    rw [← List.append_assoc, getPolyGeom_put o d p _ (h p (by simp))]
    dsimp only
    rw [ih (fun w hw => h w (by simp [hw]))]

/-- Decoding an encoded well-formed geometry consumes exactly the
encoding and returns the original geometry. -/
theorem wkbDecode_wkbEncode (o : ByteOrder) (g : Geom) (hw : g.WF) (rest : List Nat) :
    wkbDecode (wkbEncode o g ++ rest) = some (g, rest) := by
  cases g with
  | point d c =>
    unfold wkbEncode wkbDecode
    rw [List.append_assoc, getTypedHeader_put o 1 d _ (by omega) (by omega)]
    dsimp only
    rw [getCoord_put o d c rest hw]
  | linestring d ps =>
    unfold wkbEncode wkbDecode
    rw [List.append_assoc, getTypedHeader_put o 2 d _ (by omega) (by omega)]
    dsimp only
    rw [getLineBody_put o d ps rest hw]
  | polygon d rs =>
    unfold wkbEncode wkbDecode
    rw [List.append_assoc, getTypedHeader_put o 3 d _ (by omega) (by omega)]
    dsimp only
    rw [getPolyBody_put o d rs rest hw]
  | multipoint d cs =>
    have hn : cs.length < 256 ^ 4 := by rw [pow_256_four]; exact hw.1
    unfold wkbEncode wkbDecode
    rw [List.append_assoc, List.append_assoc,
      getTypedHeader_put o 4 d _ (by omega) (by omega)]
    dsimp only
    rw [getNat_putNat o 4 cs.length _ hn]
    dsimp only
    rw [getPointGeomSeq_put o d cs rest hw.2]
  | multilinestring d ls =>
    have hn : ls.length < 256 ^ 4 := by rw [pow_256_four]; exact hw.1
    unfold wkbEncode wkbDecode
    rw [List.append_assoc, List.append_assoc,
      getTypedHeader_put o 5 d _ (by omega) (by omega)]
    dsimp only
    rw [getNat_putNat o 4 ls.length _ hn]
    dsimp only
    rw [getLineGeomSeq_put o d ls rest hw.2]
  | multipolygon d pgs =>
    have hn : pgs.length < 256 ^ 4 := by rw [pow_256_four]; exact hw.1
    unfold wkbEncode wkbDecode
    rw [List.append_assoc, List.append_assoc,
      getTypedHeader_put o 6 d _ (by omega) (by omega)]
    dsimp only
    rw [getNat_putNat o 4 pgs.length _ hn]
    dsimp only
    rw [getPolyGeomSeq_put o d pgs rest hw.2]

/-! ## GeoPackage binary header (from src/geopackage/_geopackage.py) -/

/-- Faithful to SpatialTable._flag_to_bytes: int(code).to_bytes(1, "little"). -/
def _flag_to_bytes (code : Nat) : List Nat :=
  toBytesLE 1 code

/-- Faithful to SpatialTable._srid_to_bytes: int(srid).to_bytes(4, "little");
Python raises for a negative srid with this call, so the model takes a Nat. -/
def _srid_to_bytes (srid : Nat) : List Nat :=
  toBytesLE 4 srid

/-- Faithful to SpatialTable._build_gp_header(version=0, empty=1):
b"GP" + version byte + flags byte + 4-byte little-endian srid. -/
def _build_gp_header (wkid version empty : Nat) : List Nat :=
  [71, 80] ++ _flag_to_bytes version ++ _flag_to_bytes empty ++ _srid_to_bytes wkid

/-- The header actually used by insert and update: SpatialTable._gpheader
calls _build_gp_header with the default arguments version=0, empty=1. -/
def gpheader (wkid : Nat) : List Nat :=
  _build_gp_header wkid 0 1

/-- The literal b"0x000000000000f87f" that the source concatenates after the
header for an absent geometry: the 18 ASCII bytes of that text (not the
8 bytes of a NaN double). -/
def emptyShapeBytes : List Nat :=
  [48, 120, 48, 48, 48, 48, 48, 48, 48, 48, 48, 48, 48, 48, 102, 56, 55, 102]

/-! ## Geometry values offered to insert and to the row setter -/

/-- ASCII lowercasing of a string, the model of Python str.lower() on the
ASCII format names the source compares against. -/
def lowerStr (s : String) : String :=
  ⟨s.data.map Char.toLower⟩

/-- The Python value bound to the Shape key, as the dispatch in
SpatialTable.insert and _Row._update distinguishes it: a dict without a
"coordinates" key (Esri JSON), a dict with one (GeoJSON), a WKT string,
a bytes/bytearray value, or None.  The dict and str constructors carry
the geometry the text or JSON denotes. -/
inductive PyValue
  | dictEsri (g : Geom)
  | dictGeo (g : Geom)
  | wktStr (g : Geom)
  | blob (b : List Nat)
  | null
deriving DecidableEq, Repr

/-- The Python exceptions the embedded operations can raise. -/
inductive GpkgError
  | missingGeomet
  | invalidShapeType
  | nameError
  | typeError
  | invalidWKID
  | tableExists
  | integrityError
  | keyError
deriving DecidableEq, Repr

/-- Modelled from the spec: the optional geometry-interop library (geomet)
encodes a GeoJSON or WKT geometry to WKB; geomet.wkb.dumps defaults to
big-endian output. -/
def geomet_wkb_dumps (g : Geom) : List Nat :=
  wkbEncode .big g

/-- Faithful to the Shape handling of SpatialTable.insert (_geopackage.py
lines 898-938).  The geomet guard fires first, on the format name alone;
then the value/format dispatch: Esri or GeoJSON dict encoded and prefixed
with the header, WKT loaded through geomet, bytes prefixed with the header
unless the value has length at most 2 or starts with b"GB", None replaced
by the header plus the literal b"0x000000000000f87f", anything else a
ValueError.  `hasGeomet` mirrors the module flag _HASGEOMET. -/
def SpatialTable_insert_shape (hasGeomet : Bool) (wkid : Nat) (geom_format : String)
    (v : PyValue) : Except GpkgError (List Nat) :=
  if hasGeomet = false ∧ (lowerStr geom_format = "wkt" ∨ lowerStr geom_format = "geojson") then
    .error .missingGeomet
  else
    match v with
    | .dictEsri g =>
      if lowerStr geom_format = "esrijson" then .ok (gpheader wkid ++ wkbEncode .little g)
      else if lowerStr geom_format = "geojson" then .ok (gpheader wkid ++ geomet_wkb_dumps g)
      else .error .invalidShapeType
    | .dictGeo g =>
      if lowerStr geom_format = "esrijson" then .ok (gpheader wkid ++ wkbEncode .little g)
      else if lowerStr geom_format = "geojson" then .ok (gpheader wkid ++ geomet_wkb_dumps g)
      else .error .invalidShapeType
    | .wktStr g =>
      if lowerStr geom_format = "wkt" then .ok (gpheader wkid ++ geomet_wkb_dumps g)
      else .error .invalidShapeType
    | .blob b =>
      .ok (if 2 < b.length ∧ b.take 2 ≠ [71, 66] then gpheader wkid ++ b else b)
    | .null => .ok (gpheader wkid ++ emptyShapeBytes)

/-- Faithful to the Shape handling of _Row._update (_geopackage.py lines
360-381).  `header` is the _Row._header value handed over by
SpatialTable.rows (None for rows of a plain Table).  Every branch other
than the Esri-dict one reads self._gpheader, an attribute _Row does not
define, which _Row.__getattr__ resolves to None; adding bytes to None
raises TypeError.  On the GeoJSON and WKT branches the geomet call in the
right operand is evaluated first, so a missing geomet raises NameError
before the TypeError can occur. -/
def Row_update_shape (hasGeomet : Bool) (header : Option (List Nat)) (v : PyValue) :
    Except GpkgError (List Nat) :=
  match v with
  | .dictEsri g =>
    match header with
    | some h => .ok (h ++ wkbEncode .little g)
    | none => .error .typeError
  | .dictGeo _ => if hasGeomet then .error .typeError else .error .nameError
  | .wktStr _ => if hasGeomet then .error .typeError else .error .nameError
  | .blob b =>
    if 2 < b.length ∧ b.take 2 ≠ [71, 66] then .error .typeError else .ok b
  | .null => .error .typeError

/-! ## R-tree helpers (from src/geopackage/_rtree.py) -/

/-- Faithful to _strip_header: buffers whose first two bytes are b"GB" lose
their first 8 bytes; every other buffer is returned unchanged. -/
def _strip_header (g : List Nat) : List Nat :=
  if g.take 2 = [71, 66] then g.drop 8 else g

/-- One iteration of the loop body of _flatten_list: the four locals are
assigned only while they are still None, so they hold the first
coordinate ever seen. -/
def flattenStep (acc : Option ℚ × Option ℚ × Option ℚ × Option ℚ) (xy : ℚ × ℚ) :
    Option ℚ × Option ℚ × Option ℚ × Option ℚ :=
  let acc1 :=
    if acc.2.2.1 = none ∧ acc.2.2.2 = none then
      (acc.1, acc.2.1, some xy.2, some xy.2)
    else acc
  if acc1.1 = none ∧ acc1.2.1 = none then
    (some xy.1, some xy.1, acc1.2.2.1, acc1.2.2.2)
  else acc1

/-- Faithful to _flatten_list: the loop fills the four locals, but the
function discards them and returns a pair of empty lists. -/
def _flatten_list (coords : List (List (ℚ × ℚ))) : List ℚ × List ℚ :=
  let acc := coords.foldl (fun a prt => prt.foldl flattenStep a) (none, none, none, none)
  let _ := acc
  ([], [])

/-- Faithful to ST_MinX: the header is stripped and the geometry handed to
the converter, but the result is discarded and the body ends with a bare
return, so the value is always None. -/
def ST_MinX (geom : List Nat) : Option ℚ :=
  let stripped := _strip_header geom
  let _ := stripped
  none

/-! ## Schema state machine (from src/geopackage/_gpkg.py, _coord.py,
and GeoPackage.create of _geopackage.py) -/

/-- One row of gpkg_contents as _create_feature_class/_create_table fill it. -/
structure ContentsRow where
  table_name : String
  data_type : String
  identifier : String
  srs_id : Option Nat
deriving DecidableEq, Repr

/-- One row of gpkg_geometry_columns. -/
structure GeomColRow where
  table_name : String
  column_name : String
  geometry_type_name : String
  srs_id : Nat
  z : Bool
  m : Bool
deriving DecidableEq, Repr

/-- One row of gpkg_spatial_ref_sys. -/
structure SrsRow where
  srs_name : String
  srs_id : Nat
  organization : String
  organization_coordsys_id : Nat
  definition : String
  description : Option String
deriving DecidableEq, Repr

/-- One record of the built-in coordinate-system table (prj.json as
_coord.py frames it: WKID, NAME, WKT columns). -/
structure CoordRecord where
  WKID : Nat
  NAME : String
  WKT : String
deriving DecidableEq, Repr

/-- The schema state the embedded operations read and write: the user
tables that exist plus the three registry tables the claims mention. -/
structure GpkgState where
  userTables : List String
  contents : List ContentsRow
  geomCols : List GeomColRow
  srs : List SrsRow
deriving DecidableEq, Repr

/-- Faithful to lookup_coordinate_system (_coord.py lines 26-61) for an
integer argument: 102100 is replaced by 3857 before the table is
filtered, and an empty filter result raises ValueError("Invalid WKID"). -/
def lookup_coordinate_system (lutbl : List CoordRecord) (wkid : Nat) :
    Except GpkgError (List CoordRecord) :=
  let wkid2 := if wkid = 102100 then 3857 else wkid
  let q := lutbl.filter (fun r => r.WKID == wkid2)
  if q.length = 0 then .error .invalidWKID else .ok q

/-- Faithful to the _geom_lu mapping inside _create_feature_class. -/
def _geom_lu : String → Option String
  | "point" => some "POINT"
  | "multipoint" => some "MULTIPOINT"
  | "polygon" => some "MULTIPOLYGON"
  | "polyline" => some "POLYLINE"
  | "line" => some "POLYLINE"
  | _ => none

/-- Faithful to _create_feature_class (_gpkg.py lines 217-308): the user
table is created (IF NOT EXISTS), the gpkg_contents row and the
gpkg_geometry_columns row are inserted and committed, and only then is
the SRS id checked; an id absent from gpkg_spatial_ref_sys and from the
lookup table raises ValueError("Invalid WKID") at that point, leaving the
three earlier mutations in place.  Duplicate primary keys in the two
registry inserts surface as sqlite IntegrityError. -/
def _create_feature_class (lutbl : List CoordRecord) (st : GpkgState) (name : String)
    (geometry : String) (wkid : Nat) (has_z has_m : Bool) :
    Except GpkgError Bool × GpkgState :=
  match _geom_lu (lowerStr geometry) with
  | none => (.error .keyError, st)
  | some gt =>
    let st1 : GpkgState :=
      { st with userTables :=
          if name ∈ st.userTables then st.userTables else st.userTables ++ [name] }
    if st1.contents.any (fun r => r.table_name == name) then (.error .integrityError, st1)
    else
      let st2 : GpkgState :=
        { st1 with contents := st1.contents ++ [⟨name, "features", name, some wkid⟩] }
      if st2.geomCols.any (fun r => r.table_name == name) then (.error .integrityError, st2)
      else
        let st3 : GpkgState :=
          { st2 with geomCols := st2.geomCols ++ [⟨name, "Shape", gt, wkid, has_z, has_m⟩] }
        if st3.srs.any (fun r => r.srs_id == wkid) then (.ok true, st3)
        else
          match lookup_coordinate_system lutbl wkid with
          | .error e => (.error e, st3)
          | .ok [] => (.ok true, st3)
          | .ok (r :: _) =>
            (.ok true,
             { st3 with srs :=
                 st3.srs ++ [⟨r.NAME, r.WKID, "ESRI", r.WKID, r.WKT, some r.NAME⟩] })

/-- Faithful to _create_table (_gpkg.py lines 184-213): the bare try/except
turns any failure (here: a duplicate gpkg_contents primary key) into a
False return, keeping whatever mutation already happened. -/
def _create_table (st : GpkgState) (name : String) : Bool × GpkgState :=
  let st1 : GpkgState :=
    { st with userTables :=
        if name ∈ st.userTables then st.userTables else st.userTables ++ [name] }
  if st1.contents.any (fun r => r.table_name == name) then (false, st1)
  else (true, { st1 with contents := st1.contents ++ [⟨name, "attributes", name, none⟩] })

/-- Faithful to GeoPackage.exists: a case-insensitive scan of the
table_name column of gpkg_contents. -/
def GeoPackage_exists (st : GpkgState) (name : String) : Bool :=
  st.contents.any (fun r => lowerStr r.table_name == lowerStr name)

/-- The branch of GeoPackage.create after the overwrite handling. -/
def GeoPackage_create_body (lutbl : List CoordRecord) (st : GpkgState) (name : String)
    (wkid : Nat) (geometry_type : Option String) : Except GpkgError Bool × GpkgState :=
  match geometry_type with
  | some g => _create_feature_class lutbl st name g wkid false false
  | none =>
    let res := _create_table st name
    (.ok res.1, res.2)

/-- Faithful to GeoPackage.create (_geopackage.py lines 189-268): with
overwrite the table and its registry rows are dropped first (exact-name
SQL deletes); without overwrite an existing registered name raises
ValueError before anything is touched. -/
def GeoPackage_create (lutbl : List CoordRecord) (st : GpkgState) (name : String)
    (wkid : Nat) (geometry_type : Option String) (overwrite : Bool) :
    Except GpkgError Bool × GpkgState :=
  if overwrite then
    let st0 : GpkgState :=
      { st with
          userTables := st.userTables.filter (fun t => t != name),
          contents := st.contents.filter (fun r => r.table_name != name),
          geomCols := st.geomCols.filter (fun r => r.table_name != name) }
    GeoPackage_create_body lutbl st0 name wkid geometry_type
  else if GeoPackage_exists st name then (.error .tableExists, st)
  else GeoPackage_create_body lutbl st name wkid geometry_type

/-! ## Concrete inputs used by the claims -/

/-- The Esri JSON point of the end-to-end scenario, x = -118.15 and
y = 33.80, the ordinates held as their IEEE-754 bit patterns. -/
def specPoint : Geom :=
  .point .xy [13861386520916236698, 4629953744415909478]

/-- Little-endian WKB encoding of the scenario point. -/
def wkbPointBytes : List Nat :=
  wkbEncode ByteOrder.little specPoint

/-- The stored value produced by a first insert of the scenario point:
header for SRS 4326 followed by the WKB payload; it starts with b"GP". -/
def gpWrapped : List Nat :=
  gpheader 4326 ++ wkbPointBytes

/-- Bit pattern of the quiet NaN double 0x7ff8000000000000. -/
def nanBits : Nat := 0x7ff8000000000000

/-- Little-endian WKB encoding of a NaN-coordinate 2D point. -/
def nanPointLE : List Nat :=
  wkbEncode ByteOrder.little (Geom.point .xy [nanBits, nanBits])

/-- Big-endian WKB encoding of a NaN-coordinate 2D point. -/
def nanPointBE : List Nat :=
  wkbEncode ByteOrder.big (Geom.point .xy [nanBits, nanBits])

/-- A schema state with no tables and an empty SRS registry. -/
def emptyState : GpkgState := ⟨[], [], [], []⟩

/-! ## Claim C1 -/

/-- Claim C1, counterexample: inserting the scenario point as Esri JSON
into a table with SRS 4326 stores a value whose byte 3 (the flags byte)
is 1, so bit 0 — which the claim calls the empty-geometry indicator and
requires to be clear — is set; bit 5 — which the claim calls the
byte-order bit — is 0, i.e. big endian, while the SRS id bytes are
little-endian, so the claimed consistency also fails. -/
theorem C1_counterexample :
    SpatialTable_insert_shape true 4326 "EsriJSON" (PyValue.dictEsri specPoint) =
      Except.ok (gpheader 4326 ++ wkbEncode ByteOrder.little specPoint)
    ∧ (gpheader 4326 ++ wkbEncode ByteOrder.little specPoint)[3]? = some 1
    ∧ Nat.testBit 1 0 = true
    ∧ Nat.testBit 1 5 = false :=
  ⟨rfl, rfl, rfl, rfl⟩

/-- Claim C1 as amended: for every geometry inserted as Esri JSON into a
table with SRS 4326 the stored value begins with the 8-byte header
b"GP", version byte 0, flags byte 1 (bit 0 set), bytes 4-7 decoding as a
signed little-endian 32-bit integer to 4326, followed by the WKB
payload. -/
theorem C1_insert_header (g : Geom) :
    SpatialTable_insert_shape true 4326 "EsriJSON" (PyValue.dictEsri g) =
      Except.ok (gpheader 4326 ++ wkbEncode ByteOrder.little g)
    ∧ (gpheader 4326 ++ wkbEncode ByteOrder.little g).take 2 = [71, 80]
    ∧ (gpheader 4326 ++ wkbEncode ByteOrder.little g)[2]? = some 0
    ∧ (gpheader 4326 ++ wkbEncode ByteOrder.little g)[3]? = some 1
    ∧ decodeS32LE ((gpheader 4326 ++ wkbEncode ByteOrder.little g).drop 4) = 4326
    ∧ (gpheader 4326 ++ wkbEncode ByteOrder.little g).drop 8 = wkbEncode ByteOrder.little g :=
  ⟨rfl, rfl, rfl, rfl, rfl, rfl⟩

/-! ## Claim C2 -/

/-- Claim C2, counterexample: the stored output of a first insert starts
with b"GP", and re-inserting it prepends a second header, so the second
stored value is not byte-identical to the first. -/
theorem C2_counterexample :
    SpatialTable_insert_shape true 4326 "EsriJSON" (PyValue.blob wkbPointBytes) =
      Except.ok gpWrapped
    ∧ gpWrapped.take 2 = [71, 80]
    ∧ SpatialTable_insert_shape true 4326 "EsriJSON" (PyValue.blob gpWrapped) =
      Except.ok (gpheader 4326 ++ gpWrapped)
    ∧ gpheader 4326 ++ gpWrapped ≠ gpWrapped :=
  ⟨rfl, rfl, rfl, by decide⟩

/-- Claim C2 as amended: only buffers whose first two bytes are b"GB"
(or that are at most 2 bytes long) are stored unchanged; a buffer of
more than 2 bytes whose first two bytes are b"GP" receives one more
header on every insert. -/
theorem C2_passthrough (wkid : Nat) (b : List Nat) :
    (b.take 2 = [71, 66] →
      SpatialTable_insert_shape true wkid "EsriJSON" (PyValue.blob b) = Except.ok b)
    ∧ (b.take 2 = [71, 80] → 2 < b.length →
      SpatialTable_insert_shape true wkid "EsriJSON" (PyValue.blob b) =
        Except.ok (gpheader wkid ++ b)) := by
  constructor
  · intro h
    simp only [SpatialTable_insert_shape]
    rw [if_neg (by simp)]
    rw [if_neg (by simp [h])]
  · intro h hl
    simp only [SpatialTable_insert_shape]
    rw [if_neg (by simp)]
    rw [if_pos ⟨hl, by rw [h]; decide⟩]

/-- Claim C2 witness: a b"GB" buffer passes through, a b"GP" buffer is
re-wrapped. -/
theorem C2_passthrough_witness :
    SpatialTable_insert_shape true 4326 "EsriJSON" (PyValue.blob [71, 66, 9]) =
      Except.ok [71, 66, 9]
    ∧ SpatialTable_insert_shape true 4326 "EsriJSON" (PyValue.blob [71, 80, 9]) =
      Except.ok (gpheader 4326 ++ [71, 80, 9]) :=
  ⟨(C2_passthrough 4326 [71, 66, 9]).1 rfl,
   (C2_passthrough 4326 [71, 80, 9]).2 rfl (by decide)⟩

/-! ## Claim C3 -/

/-- Claim C3, counterexample: on a buffer whose first two bytes are b"GB"
the header-stripping helper removes the first 8 bytes instead of
returning the buffer unchanged. -/
theorem C3_counterexample :
    _strip_header [71, 66, 0, 1, 230, 16, 0, 0, 1, 2] = [1, 2]
    ∧ [1, 2] ≠ [71, 66, 0, 1, 230, 16, 0, 0, 1, 2] :=
  ⟨rfl, by decide⟩

/-- Claim C3 as amended: buffers whose first two bytes are b"GB" have
their first 8 bytes removed, and exactly the buffers not starting with
b"GB" are returned unchanged. -/
theorem C3_strip_header (g : List Nat) :
    (g.take 2 = [71, 66] → _strip_header g = g.drop 8)
    ∧ (g.take 2 ≠ [71, 66] → _strip_header g = g) := by
  constructor
  · intro h
    unfold _strip_header
    rw [if_pos h]
  · intro h
    unfold _strip_header
    rw [if_neg h]

/-- Claim C3 witness: both branches at concrete buffers. -/
theorem C3_strip_header_witness :
    _strip_header [71, 66, 0, 1, 230, 16, 0, 0, 5] = [5]
    ∧ _strip_header [1, 2, 3] = [1, 2, 3] :=
  ⟨(C3_strip_header [71, 66, 0, 1, 230, 16, 0, 0, 5]).1 rfl,
   (C3_strip_header [1, 2, 3]).2 (by decide)⟩

/-! ## Claim C4 -/

/-- Claim C4, counterexample: the bytes stored after the header for an
absent geometry are the 18 ASCII characters of the text
"0x000000000000f87f", which differ from the WKB encoding of a
NaN-coordinate point in either byte order and do not decode as WKB at
all; moreover the header is the same flags-byte-1 header used for every
geometry, and the row setter does not store the pattern but raises
TypeError. -/
theorem C4_counterexample :
    SpatialTable_insert_shape true 4326 "EsriJSON" PyValue.null =
      Except.ok (gpheader 4326 ++ emptyShapeBytes)
    ∧ emptyShapeBytes ≠ nanPointLE
    ∧ emptyShapeBytes ≠ nanPointBE
    ∧ wkbDecode emptyShapeBytes = none
    ∧ Row_update_shape true (some (gpheader 4326)) PyValue.null =
      Except.error GpkgError.typeError :=
  ⟨rfl, by decide, by decide, rfl, rfl⟩

/-- Claim C4 as amended: inserting the absence value stores the header
followed by the fixed 18-byte ASCII literal b"0x000000000000f87f" — the
hexadecimal text of a little-endian NaN double, not a WKB point — and
this stored value is never empty; the encoding is a function of the SRS
id alone, hence deterministic. -/
theorem C4_empty_insert (wkid : Nat) :
    SpatialTable_insert_shape true wkid "EsriJSON" PyValue.null =
      Except.ok (gpheader wkid ++ emptyShapeBytes)
    ∧ emptyShapeBytes.length = 18
    ∧ gpheader wkid ++ emptyShapeBytes ≠ [] :=
  ⟨rfl, rfl, List.cons_ne_nil _ _⟩

/-! ## Claim C5 -/

/-- Claim C5: for every supported geometry variant and dimensionality and
both byte orders, decoding the WKB encoding of a well-formed geometry
returns the original geometry (coordinates are 64-bit patterns, so no
precision is lost); the decoder consumes the whole encoding. -/
theorem C5_wkb_roundtrip (o : ByteOrder) (g : Geom) (hw : g.WF) :
    wkbDecode (wkbEncode o g) = some (g, []) := by
  have h := wkbDecode_wkbEncode o g hw []
  simpa using h

/-- Claim C5 witness: round trip of a concrete two-point multipoint. -/
theorem C5_wkb_roundtrip_witness :
    (Geom.multipoint .xy [[1, 2], [3, 4]]).WF
    ∧ wkbDecode (wkbEncode ByteOrder.little (Geom.multipoint .xy [[1, 2], [3, 4]])) =
        some (Geom.multipoint .xy [[1, 2], [3, 4]], []) :=
  ⟨by decide, C5_wkb_roundtrip ByteOrder.little (Geom.multipoint .xy [[1, 2], [3, 4]]) (by decide)⟩

/-! ## Claim C6 -/

/-- The stored geometry blob of the claim's two-point multipoint, with
the IEEE-754 bit patterns of -97.06138, 32.837, -97.06124, 32.834. -/
def mpBytes : List Nat :=
  wkbEncode ByteOrder.little
    (Geom.multipoint .xy
      [[13859902541210396729, 4629818214214623298],
       [13859902531358772544, 4629817792002158232]])

/-- The same multipoint as parsed JSON coordinates, as _flatten_list
receives them. -/
def mpCoords : List (List (ℚ × ℚ)) :=
  [[(-9706138 / 100000, 32837 / 1000), (-9706124 / 100000, 32834 / 1000)]]

/-- Claim C6: the claim states the intended envelope, but the extent
helpers in _rtree.py are stubs: ST_MinX ends in a bare return, so it
yields None on the claim's multipoint (instead of -97.06138), and
_flatten_list always returns two empty lists. -/
theorem C6_extent_stub :
    ST_MinX mpBytes = none ∧ _flatten_list mpCoords = ([], []) :=
  ⟨rfl, rfl⟩

/-! ## Claim C7 -/

/-- Claim C7, counterexample: creating a feature class with SRS id 9999,
absent from the registry and from an empty lookup table, raises the
Invalid-WKID ValueError, but the resulting schema state is not the prior
state: the user table, gpkg_contents row and gpkg_geometry_columns row
were already created and committed. -/
theorem C7_counterexample :
    (_create_feature_class [] emptyState "Quarterflash" "point" 9999 false false).1 =
      Except.error GpkgError.invalidWKID
    ∧ (_create_feature_class [] emptyState "Quarterflash" "point" 9999 false false).2 ≠
      emptyState :=
  ⟨rfl, by decide⟩

/-- Claim C7 as amended: for every schema state not yet containing the
table and every SRS id absent from the registry and unresolvable from
the lookup table, creating the feature class fails with the unknown-SRS
error, but only after the user table, the gpkg_contents row and the
gpkg_geometry_columns row have been created and committed; those
mutations remain, so the prior schema state is not left unchanged. -/
theorem C7_unknown_srs (lutbl : List CoordRecord) (st : GpkgState) (name : String) (wkid : Nat)
    (h1 : st.contents.any (fun r => r.table_name == name) = false)
    (h2 : st.geomCols.any (fun r => r.table_name == name) = false)
    (h3 : st.srs.any (fun r => r.srs_id == wkid) = false)
    (h4 : lookup_coordinate_system lutbl wkid = Except.error GpkgError.invalidWKID) :
    _create_feature_class lutbl st name "point" wkid false false =
      (Except.error GpkgError.invalidWKID,
       { userTables := if name ∈ st.userTables then st.userTables else st.userTables ++ [name],
         contents := st.contents ++ [⟨name, "features", name, some wkid⟩],
         geomCols := st.geomCols ++ [⟨name, "Shape", "POINT", wkid, false, false⟩],
         srs := st.srs })
    ∧ (_create_feature_class lutbl st name "point" wkid false false).2 ≠ st := by
  have hmain : _create_feature_class lutbl st name "point" wkid false false =
      (Except.error GpkgError.invalidWKID,
       { userTables := if name ∈ st.userTables then st.userTables else st.userTables ++ [name],
         contents := st.contents ++ [⟨name, "features", name, some wkid⟩],
         geomCols := st.geomCols ++ [⟨name, "Shape", "POINT", wkid, false, false⟩],
         srs := st.srs }) := by
    unfold _create_feature_class
    rw [show _geom_lu (lowerStr "point") = some "POINT" from rfl]
    dsimp only
    rw [if_neg (by simp [h1]), if_neg (by simp [h2]), if_neg (by simp [h3]), h4]
  refine ⟨hmain, ?_⟩
  rw [hmain]
  intro hEq
  have hc := congrArg GpkgState.contents hEq
  dsimp at hc
  have hl := congrArg List.length hc
  simp at hl

/-- Claim C7 witness: the amended statement at an empty state, an empty
lookup table and SRS id 9999. -/
theorem C7_unknown_srs_witness :
    _create_feature_class [] emptyState "Timbuk3" "point" 9999 false false =
      (Except.error GpkgError.invalidWKID,
       { userTables := ["Timbuk3"],
         contents := [⟨"Timbuk3", "features", "Timbuk3", some 9999⟩],
         geomCols := [⟨"Timbuk3", "Shape", "POINT", 9999, false, false⟩],
         srs := [] })
    ∧ (_create_feature_class [] emptyState "Timbuk3" "point" 9999 false false).2 ≠ emptyState :=
  C7_unknown_srs [] emptyState "Timbuk3" 9999 rfl rfl rfl rfl

/-! ## Claim C8 -/

/-- Claim C8: creating a table under a name already registered in
gpkg_contents with overwrite disabled raises the table-exists ValueError
before any mutation, so the state — including the existing table and its
schema records — is returned unchanged. -/
theorem C8_duplicate_table (lutbl : List CoordRecord) (st : GpkgState) (name : String)
    (wkid : Nat) (gty : Option String)
    (h : GeoPackage_exists st name = true) :
    GeoPackage_create lutbl st name wkid gty false =
      (Except.error GpkgError.tableExists, st) := by
  unfold GeoPackage_create
  rw [if_neg (by simp)]
  rw [if_pos (by simp [h])]

/-- A state already holding a feature class named MenWithoutHats. -/
def dupState : GpkgState :=
  ⟨["MenWithoutHats"],
   [⟨"MenWithoutHats", "features", "MenWithoutHats", some 4326⟩],
   [⟨"MenWithoutHats", "Shape", "MULTIPOLYGON", 4326, false, false⟩],
   []⟩

/-- Claim C8 witness: re-creating the table (case-insensitively) without
overwrite errors and leaves the state untouched. -/
theorem C8_duplicate_table_witness :
    GeoPackage_create [] dupState "menwithouthats" 4326 (some "polygon") false =
      (Except.error GpkgError.tableExists, dupState) :=
  C8_duplicate_table [] dupState "menwithouthats" 4326 (some "polygon") rfl

/-! ## Claim C9 -/

/-- Claim C9, counterexample: with geomet unavailable, a WKT write through
the row setter fails with NameError — the undefined geometwkt name —
rather than the missing-dependency ValueError the claim requires; and
the WKB write through the setter is not functional either: it raises
TypeError independently of geomet. -/
theorem C9_counterexample :
    Row_update_shape false (some (gpheader 4326)) (PyValue.wktStr specPoint) =
      Except.error GpkgError.nameError
    ∧ GpkgError.nameError ≠ GpkgError.missingGeomet
    ∧ Row_update_shape false (some (gpheader 4326)) (PyValue.blob [1, 2, 3]) =
      Except.error GpkgError.typeError :=
  ⟨rfl, by decide, rfl⟩

/-- Claim C9 as amended: with geomet unavailable, every write through
SpatialTable.insert with format WKT or GeoJSON fails with the dedicated
missing-dependency ValueError, and the insert paths for EsriJSON, WKB
and GB-prefixed GeoPackage binary remain functional; through the row
setter, however, WKT and GeoJSON writes fail with NameError instead, and
of the setter paths only the Esri-dict and GB-prefixed ones work. -/
theorem C9_geomet_gating (wkid : Nat) (geom_format : String) (v : PyValue) (g : Geom)
    (b : List Nat) :
    (lowerStr geom_format = "wkt" ∨ lowerStr geom_format = "geojson" →
      SpatialTable_insert_shape false wkid geom_format v = Except.error GpkgError.missingGeomet)
    ∧ SpatialTable_insert_shape false wkid "EsriJSON" (PyValue.dictEsri g) =
        Except.ok (gpheader wkid ++ wkbEncode ByteOrder.little g)
    ∧ (b.take 2 = [71, 66] →
        SpatialTable_insert_shape false wkid "EsriJSON" (PyValue.blob b) = Except.ok b)
    ∧ (2 < b.length → b.take 2 ≠ [71, 66] →
        SpatialTable_insert_shape false wkid "EsriJSON" (PyValue.blob b) =
          Except.ok (gpheader wkid ++ b))
    ∧ SpatialTable_insert_shape false wkid "EsriJSON" PyValue.null =
        Except.ok (gpheader wkid ++ emptyShapeBytes)
    ∧ Row_update_shape false (some (gpheader wkid)) (PyValue.wktStr g) =
        Except.error GpkgError.nameError
    ∧ Row_update_shape false (some (gpheader wkid)) (PyValue.dictGeo g) =
        Except.error GpkgError.nameError := by
  refine ⟨?_, rfl, ?_, ?_, rfl, rfl, rfl⟩
  · intro h
    unfold SpatialTable_insert_shape
    rw [if_pos ⟨rfl, h⟩]
  · intro h
    simp only [SpatialTable_insert_shape]
    rw [if_neg (by decide)]
    rw [if_neg (by simp [h])]
  · intro hl h
    simp only [SpatialTable_insert_shape]
    rw [if_neg (by decide)]
    rw [if_pos ⟨hl, h⟩]

/-- Claim C9 witness: the gated and the functional paths at concrete
inputs. -/
theorem C9_geomet_gating_witness :
    SpatialTable_insert_shape false 4326 "WKT" PyValue.null =
      Except.error GpkgError.missingGeomet
    ∧ SpatialTable_insert_shape false 4326 "EsriJSON" (PyValue.blob [71, 66, 7]) =
      Except.ok [71, 66, 7]
    ∧ SpatialTable_insert_shape false 4326 "EsriJSON" (PyValue.blob [1, 2, 3, 4]) =
      Except.ok (gpheader 4326 ++ [1, 2, 3, 4]) :=
  ⟨(C9_geomet_gating 4326 "WKT" PyValue.null specPoint []).1 (Or.inl rfl),
   (C9_geomet_gating 4326 "x" PyValue.null specPoint [71, 66, 7]).2.2.1 rfl,
   (C9_geomet_gating 4326 "x" PyValue.null specPoint [1, 2, 3, 4]).2.2.2.1 (by decide) (by decide)⟩

/-! ## Claim C10 -/

/-- Claim C10: looking up SRS id 102100 is the same as looking up 3857 —
the alias is applied before the table is searched — and whenever the
lookup of 102100 succeeds, every returned record has WKID 3857. -/
theorem C10_wkid_alias (lutbl : List CoordRecord) :
    lookup_coordinate_system lutbl 102100 = lookup_coordinate_system lutbl 3857
    ∧ ∀ rs, lookup_coordinate_system lutbl 102100 = Except.ok rs →
        ∀ r ∈ rs, r.WKID = 3857 := by
  constructor
  · unfold lookup_coordinate_system
    norm_num
  · intro rs hok r hr
    have halias : lookup_coordinate_system lutbl 102100 =
        (if (lutbl.filter (fun r => r.WKID == 3857)).length = 0 then
          Except.error GpkgError.invalidWKID
        else Except.ok (lutbl.filter (fun r => r.WKID == 3857))) := by
      unfold lookup_coordinate_system
      norm_num
    rw [halias] at hok
    by_cases hc : (lutbl.filter (fun r => r.WKID == 3857)).length = 0
    · rw [if_pos hc] at hok
      exact absurd hok (by simp)
    · rw [if_neg hc] at hok
      have hrs : lutbl.filter (fun r => r.WKID == 3857) = rs := Except.ok.inj hok
      rw [← hrs] at hr
      have hmem := (List.mem_filter.mp hr).2
      simpa using hmem

/-- A lookup-table record for Web Mercator, WKID 3857. -/
def rec3857 : CoordRecord :=
  ⟨3857, "WGS_1984_Web_Mercator_Auxiliary_Sphere", "PROJCS"⟩

/-- Claim C10 witness: looking up 102100 in a one-record table returns
the 3857 record. -/
theorem C10_wkid_alias_witness : rec3857.WKID = 3857 :=
  (C10_wkid_alias [rec3857]).2 [rec3857] rfl rec3857 (by simp)

end PyGpkg
